import Mathlib

/-
Verification of the artist-explorer recommendation backend.

Shallow embedding of:
  - backend/database.py   (RecommendationManager, TrackManager lookups)
  - backend/fast_api_test.py (check_artist_status, update_artist_songs,
    search_songs_for_artist, event_generator, SearchManager)
  - backend/tree_builder.py (create_tree_from_tracks)

Conventions:
  - Database tables are association lists; SQL SELECT ... WHERE k = v ... first()
    is List.find?; INSERT appends a row at the end (so existing lookups are
    unaffected); DELETE/replace is modelled explicitly.
  - Python exceptions are Except PyErr; the distinct exception classes that the
    code can raise are the PyErr constructors.
  - random.choice is modelled by an arbitrary index (choice % length picks an
    arbitrary element); random.sample is modelled by an arbitrary sampling
    function whose output length is min 7 (input length), which is the
    documented contract of random.sample.
  - datetime timestamps are integers counting days; timedelta(weeks=2) is 14.
-/

/-- Exception classes raised by the embedded Python code. -/
inductive PyErr where
  | valueError
  | typeError
  | integrityError
  | indexError
  | operationalError
  | dbError
deriving DecidableEq, Repr

/-- TrackResponse rows of database.py (the fields actually read by the code
under verification). -/
structure Track where
  spotify_id : String
  title : String
  album_name : Option String
  album_art_url : Option String
  popularity : Int
deriving DecidableEq, Repr

/-- The per-artist recommendations table: rows (path_id, track_id), path_id
is the primary key. -/
abbrev RecTable := List (Nat × String)

/-- SELECT track_id FROM recommendations WHERE path_id = p, first row. -/
def lookupRec : RecTable → Nat → Option String
  | [], _ => none
  | (p, tid) :: rest, q => if p = q then some tid else lookupRec rest q

/-- TrackManager.get_track: SELECT * FROM tracks WHERE spotify_id = track_id,
first row or None. -/
def getTrack (catalog : List Track) (track_id : String) : Option Track :=
  catalog.find? (fun t => t.spotify_id == track_id)

/-- The track_ids already assigned anywhere in the artist's tree
(SELECT track_id FROM recommendations). -/
def usedIds (table : RecTable) : List String :=
  table.map Prod.snd

/-- available_tracks = [t for t in all_tracks if t.spotify_id not in used_track_ids]. -/
def availableTracks (catalog : List Track) (table : RecTable) : List Track :=
  catalog.filter (fun t => !((usedIds table).contains t.spotify_id))

/-- Plain INSERT INTO recommendations (path_id, track_id): raises
IntegrityError when the primary key is already present. -/
def insertRow (table : RecTable) (p : Nat) (tid : String) : Except PyErr RecTable :=
  if (lookupRec table p).isSome then .error .integrityError
  else .ok (table ++ [(p, tid)])

/-- Python max(tracks, key=lambda t: t.popularity): fold keeping the current
maximum, replaced only on a strictly greater key, so the first maximal
element wins. -/
def pyMaxAux (cur : Track) : List Track → Track
  | [] => cur
  | t :: ts => pyMaxAux (if cur.popularity < t.popularity then t else cur) ts

/-- next_path = (current_path << 1) | (1 if liked else 0). -/
def nextPath (current_path : Nat) (liked : Bool) : Nat :=
  (current_path <<< 1) ||| (if liked then 1 else 0)

/-- The branch of RecommendationManager.get_initial_recommendation taken after
the existence check at path 1 saw no (truthy) row: fetch the catalog, raise
ValueError if empty, take the popularity maximum, attempt the root insert,
and return the locally computed track.  The insert attempt is dead code in
the source: the statement is built from the generic sqlalchemy Insert
(imported at database.py:14), which has no on_conflict_do_nothing method, so
building it raises AttributeError, swallowed by the bare except — the
recommendations table is never modified on this path.  The table argument is
the table as seen at that point; under a concurrent race it may already
contain a row at path 1 inserted by another caller after this caller's
check. -/
def get_initial_createRoot (catalog : List Track) (tableAtInsert : RecTable) :
    Except PyErr (Track × RecTable) :=
  match catalog with
  | [] => .error .valueError
  | c :: cs =>
    let initial_track := pyMaxAux c cs
    .ok (initial_track, tableAtInsert)

/-- RecommendationManager.get_initial_recommendation (sequential run):
`if existing_track_id:` is Python truthiness, so an empty-string track_id
falls through to root creation like a missing row. -/
def get_initial_recommendation (catalog : List Track) (table : RecTable) :
    Except PyErr (Track × RecTable) :=
  match lookupRec table 1 with
  | some tid =>
    if tid = "" then get_initial_createRoot catalog table
    else
      match getTrack catalog tid with
      | none => .error .valueError
      | some t => .ok (t, table)
  | none => get_initial_createRoot catalog table

/-- Membership-preserving list indexing used to model random.choice. -/
def pickTrack (a : Track) (rest : List Track) (choice : Nat) : Track :=
  (a :: rest).getD (choice % (a :: rest).length) a

/-- The branch of get_next_recommendation taken when no truthy row exists at
next_path: compute available tracks, return None when exhausted, otherwise
pick one (random.choice modelled by the choice index) and INSERT it. -/
def get_next_create (catalog : List Track) (table : RecTable) (next_path choice : Nat) :
    Except PyErr (Option Track × RecTable) :=
  match availableTracks catalog table with
  | [] => .ok (none, table)
  | a :: rest =>
    let next_track := pickTrack a rest choice
    match insertRow table next_path next_track.spotify_id with
    | .error e => .error e
    | .ok t2 => .ok (some next_track, t2)

/-- RecommendationManager.get_next_recommendation. -/
def get_next_recommendation (catalog : List Track) (table : RecTable)
    (current_path : Nat) (liked : Bool) (choice : Nat) :
    Except PyErr (Option Track × RecTable) :=
  let next_path := nextPath current_path liked
  match lookupRec table next_path with
  | some tid =>
    if tid = "" then get_next_create catalog table next_path choice
    else .ok (getTrack catalog tid, table)
  | none => get_next_create catalog table next_path choice

/-- The RecommendationNode invariant of the spec: for a fixed artist the table
is a partial function from path to track_id (paths pairwise distinct) and no
track_id is assigned to two different paths (track_ids pairwise distinct). -/
def recInv (table : RecTable) : Prop :=
  (table.map Prod.fst).Nodup ∧ (table.map Prod.snd).Nodup

instance (table : RecTable) : Decidable (recInv table) := by
  unfold recInv; infer_instance

/-
Catalog freshness model (fast_api_test.py).  songs.db is modelled as an
artists table plus a map from table name to song rows.  aiosqlite commit
boundaries are made explicit: ensure_artist_table commits, so the timestamp
UPDATE issued before it is persisted even when the subsequent replacement
fails and its uncommitted DELETE/INSERTs roll back.
-/

/-- A row of the artists table of fast_api_test.init_db; last is the nullable
last_updated column (days). -/
structure ArtistRow where
  sid : String
  name : String
  last : Option Int
deriving DecidableEq, Repr

/-- A row of a per-artist songs table (the columns written by
update_artist_songs). -/
structure SongRow where
  title : String
  spotify_id : Option String
  album_name : Option String
  popularity : Int
deriving DecidableEq, Repr

abbrev TablesMap := List (String × List SongRow)

/-- The committed state of songs.db as seen by fast_api_test.py. -/
structure CatalogDB where
  artists : List ArtistRow
  tables : TablesMap
deriving DecidableEq, Repr

/-- Python str.replace with the single-character pattern "." replaced by "_",
written as a structural character map. -/
def replaceDots : List Char → List Char
  | [] => []
  | c :: cs => (if c = '.' then '_' else c) :: replaceDots cs

/-- sanitize_table_name (note the code builds the name from whatever string it
is handed: spotify_id in check_artist_status, artist_name in
update_artist_songs). -/
def sanitize_table_name (s : String) : String :=
  "songs_" ++ String.mk (replaceDots s.data)

/-- Content of a named table, none when the table does not exist. -/
def getTable (ts : TablesMap) (n : String) : Option (List SongRow) :=
  (ts.find? (fun kv => kv.1 == n)).map Prod.snd

/-- ensure_artist_table: CREATE TABLE IF NOT EXISTS (and COMMIT). -/
def ensureTable (ts : TablesMap) (n : String) : TablesMap :=
  if (getTable ts n).isSome then ts else ts ++ [(n, [])]

/-- Replace the content of an existing table (the committed effect of
DELETE FROM t plus the INSERTs). -/
def setTable (ts : TablesMap) (n : String) (rows : List SongRow) : TablesMap :=
  ts.map (fun kv => if kv.1 == n then (n, rows) else kv)

/-- SELECT ... FROM artists WHERE spotify_id = sid, first row. -/
def lookupArtist (rows : List ArtistRow) (sid : String) : Option ArtistRow :=
  rows.find? (fun r => r.sid == sid)

/-- update_artist_songs.  Steps in source order: UPDATE artists SET
last_updated = now WHERE name = artist_name (uncommitted);
ensure_artist_table, which COMMITs, persisting the timestamp update and the
table creation; DELETE existing songs and INSERT the new ones; final COMMIT.
failAt = some k injects an exception at the k-th INSERT (k < songs.length);
the uncommitted DELETE/INSERTs then roll back, but the timestamp update is
already committed.  Returns the committed state and whether the call
succeeded (False = the exception propagates to the caller). -/
def update_artist_songs (now : Int) (db : CatalogDB) (artist_name : String)
    (songs : List SongRow) (failAt : Option Nat) : CatalogDB × Bool :=
  let tname := sanitize_table_name artist_name
  let artists2 := db.artists.map
    (fun r => if r.name == artist_name then { r with last := some now } else r)
  let tables1 := ensureTable db.tables tname
  let ok := match failAt with
    | none => true
    | some k => decide (songs.length ≤ k)
  if ok then ({ artists := artists2, tables := setTable tables1 tname songs }, true)
  else ({ artists := artists2, tables := tables1 }, false)

/-- check_artist_status.  A missing artists row creates the row with
last_updated = now plus the artist table and reports needs_update = True;
an existing row with a NULL last_updated hits
datetime.fromisoformat(None), a TypeError; otherwise needs_update is
last_updated < now - 14 days.  Returns (needs_update, table_name, db). -/
def check_artist_status (now : Int) (db : CatalogDB) (sid name : String) :
    Except PyErr (Bool × String × CatalogDB) :=
  let tname := sanitize_table_name sid
  match lookupArtist db.artists sid with
  | none =>
    .ok (true, tname,
      { artists := db.artists ++ [⟨sid, name, some now⟩],
        tables := ensureTable db.tables tname })
  | some r =>
    match r.last with
    | none => .error .typeError
    | some t => .ok (decide (t < now - 14), tname, db)

/-- The hard-coded song list standing in for the Spotify call in
search_songs_for_artist; the insert reads song.get("album_name"), which the
dicts do not carry, so None is stored. -/
def mockSongs : List SongRow :=
  [⟨"Song 1", some "abc123", none, 75⟩, ⟨"Song 2", some "def456", none, 80⟩]

/-- search_songs_for_artist.  Returns (outcome, committed db, number of
sync-provider invocations performed).  An exception from
check_artist_status or from the update propagates as the error outcome. -/
def search_songs_for_artist (now : Int) (db : CatalogDB) (sid name : String)
    (failAt : Option Nat) : Except PyErr (List SongRow) × CatalogDB × Nat :=
  match check_artist_status now db sid name with
  | .error e => (.error e, db, 0)
  | .ok (needs_update, tname, db1) =>
    if needs_update then
      let r := update_artist_songs now db1 name mockSongs failAt
      if r.2 then
        match getTable r.1.tables tname with
        | none => (.error .operationalError, r.1, 1)
        | some rows => (.ok rows, r.1, 1)
      else (.error .dbError, r.1, 1)
    else
      match getTable db1.tables tname with
      | none => (.error .operationalError, db1, 0)
      | some rows => (.ok rows, db1, 0)

/-
Search TTL store and progress stream (fast_api_test.py SearchManager and
event_generator).
-/

/-- The record stored under search:{id}. -/
structure SearchData where
  spotify_id : String
  artist_name : String
deriving DecidableEq, Repr

abbrev SearchStore := List (String × SearchData)

/-- redis GET (a live, unexpired key). -/
def redis_get (st : SearchStore) (k : String) : Option SearchData :=
  (st.find? (fun kv => kv.1 == k)).map Prod.snd

/-- redis DELETE: removes the key; idempotent. -/
def redis_delete (st : SearchStore) (k : String) : SearchStore :=
  st.filter (fun kv => !(kv.1 == k))

/-- Messages yielded by event_generator. -/
inductive StreamMsg where
  | searching
  | completed (songId artistId artistName : String)
  | errorMsg (message : String)
deriving DecidableEq, Repr

/-- Outcomes of the collaborator calls made inside event_generator's try
block: the song search, the decision-tree build, and the redis session
write.  treeResult carries the id of the tree's root song on success. -/
structure GenEnv where
  songsResult : Except String Unit
  treeResult : Except String String
  sessionResult : Except String Unit

/-- The messages produced by event_generator's try/except body: the initial
searching message, then either the completed message or the error message of
whichever step raised (a missing search record raises KeyError). -/
def event_generator_msgs (store : SearchStore) (search_id : String) (env : GenEnv) :
    List StreamMsg :=
  match redis_get store ("search:" ++ search_id) with
  | none => [.searching, .errorMsg ("Search " ++ search_id ++ " not found")]
  | some sd =>
    match env.songsResult with
    | .error e => [.searching, .errorMsg e]
    | .ok _ =>
      match env.treeResult with
      | .error e => [.searching, .errorMsg e]
      | .ok rootSong =>
        match env.sessionResult with
        | .error e => [.searching, .errorMsg e]
        | .ok _ => [.searching, .completed rootSong sd.spotify_id sd.artist_name]

/-- One run of the event_generator async generator.  stopAfter = some k
models the consumer abandoning the stream after k yields (the generator is
closed and only the first k messages were delivered); none models running to
exhaustion.  The finally block runs on every exit path — normal completion,
raised error, or early close — and deletes the search record. -/
def event_generator_run (store : SearchStore) (search_id : String) (env : GenEnv)
    (stopAfter : Option Nat) : List StreamMsg × SearchStore :=
  let msgs := event_generator_msgs store search_id env
  let emitted := match stopAfter with
    | none => msgs
    | some k => msgs.take k
  (emitted, redis_delete store ("search:" ++ search_id))

/-
Preview tree builder (tree_builder.py).
-/

/-- The Song dataclass fields populated by create_tree_from_tracks. -/
structure BSong where
  song_id : String
  title : String
  artists : List String
  album_name : String
  album_art_url : String
deriving DecidableEq, Repr

/-- The TreeNode dataclass: a song with optional vote_no / vote_yes children. -/
inductive BTreeNode where
  | node (song : BSong) (vote_no : Option BTreeNode) (vote_yes : Option BTreeNode)

/-- Build the Song for one selected track (the `or` defaults of the source). -/
def mkSong (t : Track) (artist_name : String) : BSong :=
  { song_id := t.spotify_id
    title := t.title
    artists := [artist_name]
    album_name := t.album_name.getD "Unknown Album"
    album_art_url := t.album_art_url.getD "https://via.placeholder.com/150" }

/-- selected_tracks[i]: raises IndexError when i is out of range. -/
def idxTrack (l : List Track) (i : Nat) : Except PyErr Track :=
  match l[i]? with
  | some t => .ok t
  | none => .error .indexError

/-- create_tree_from_tracks.  sample models random.sample(tracks, min(7,
len(tracks))); positions 0 through 6 of its result are indexed
unconditionally, in source evaluation order. -/
def create_tree_from_tracks (tracks : List Track) (artist_name : String)
    (sample : List Track → List Track) : Except PyErr BTreeNode := do
  let selected := sample tracks
  let t0 ← idxTrack selected 0
  let t1 ← idxTrack selected 1
  let t2 ← idxTrack selected 2
  let t3 ← idxTrack selected 3
  let t4 ← idxTrack selected 4
  let t5 ← idxTrack selected 5
  let t6 ← idxTrack selected 6
  return .node (mkSong t0 artist_name)
    (some (.node (mkSong t1 artist_name)
      (some (.node (mkSong t2 artist_name) none none))
      (some (.node (mkSong t3 artist_name) none none))))
    (some (.node (mkSong t4 artist_name)
      (some (.node (mkSong t5 artist_name) none none))
      (some (.node (mkSong t6 artist_name) none none))))

/-
Concrete data for witnesses and counterexamples.
-/

def trackA : Track := ⟨"a", "Track A", none, none, 90⟩

def trackB : Track := ⟨"b", "Track B", none, none, 50⟩

def trackC : Track := ⟨"c", "Track C", none, none, 10⟩

/-- A database with one artist synced at day 0 and its existing songs table. -/
def c3db : CatalogDB :=
  ⟨[⟨"x", "X", some 0⟩], [("songs_X", [⟨"Old Song", some "old1", none, 10⟩])]⟩

/-- A database whose only artist row has a NULL last_updated. -/
def c9db : CatalogDB := ⟨[⟨"x", "X", none⟩], []⟩

/-- A database whose only artist was synced on day 85. -/
def c9wdb : CatalogDB := ⟨[⟨"x", "X", some 85⟩], [("songs_x", [])]⟩

/-
Helper lemmas.
-/

theorem two_mul_or_one (n : Nat) : 2 * n ||| 1 = 2 * n + 1 := by
  apply Nat.eq_of_testBit_eq
  intro i
  rw [Nat.testBit_or]
  cases i with
  | zero =>
    simp only [Nat.testBit_zero]
    have h1 : 2 * n % 2 = 0 := by omega
    have h2 : (2 * n + 1) % 2 = 1 := by omega
    simp [h1, h2]
  | succ j =>
    simp only [Nat.testBit_succ]
    have h1 : 2 * n / 2 = n := by omega
    have h2 : (2 * n + 1) / 2 = n := by omega
    have h3 : (1 : Nat) / 2 = 0 := by omega
    rw [h1, h2, h3]
    simp

theorem nextPath_eq (cp : Nat) (liked : Bool) :
    nextPath cp liked = 2 * cp + (if liked then 1 else 0) := by
  unfold nextPath
  rw [Nat.shiftLeft_eq]
  cases liked with
  | false => simp [Nat.mul_comm]
  | true => simp only [if_pos]; rw [Nat.mul_comm cp 2]; exact two_mul_or_one cp

theorem lookupRec_eq_none_iff (t : RecTable) (p : Nat) :
    lookupRec t p = none ↔ ∀ pr ∈ t, pr.1 ≠ p := by
  induction t with
  | nil => simp [lookupRec]
  | cons hd tl ih =>
    obtain ⟨q, tid⟩ := hd
    by_cases h : q = p
    · subst h
      simp [lookupRec]
    · simp [lookupRec, h, ih]

theorem getD_mem_or_default (l : List Track) (i : Nat) (d : Track) :
    l.getD i d = d ∨ l.getD i d ∈ l := by
  induction l generalizing i with
  | nil => left; rfl
  | cons a t ih =>
    cases i with
    | zero => right; simp [List.getD]
    | succ j =>
      rcases ih j with h | h
      · left; simpa [List.getD] using h
      · right; simp only [List.getD] at h ⊢; exact List.mem_cons_of_mem a h

theorem pickTrack_mem (a : Track) (rest : List Track) (choice : Nat) :
    pickTrack a rest choice ∈ a :: rest := by
  unfold pickTrack
  rcases getD_mem_or_default (a :: rest) (choice % (a :: rest).length) a with h | h
  · rw [h]; exact List.mem_cons_self a rest
  · exact h

theorem availableTracks_not_used (catalog : List Track) (table : RecTable)
    (t : Track) (h : t ∈ availableTracks catalog table) :
    t.spotify_id ∉ usedIds table := by
  have := (List.mem_filter.mp h).2
  simp only [Bool.not_eq_eq_eq_not, Bool.not_true] at this
  simpa using this

/-- The behaviour of Python max(tracks, key=popularity) seeded with cur:
either no element beats cur and the result is cur, or the result is the
element at the first index whose popularity strictly exceeds cur and
everything before it, and nothing anywhere exceeds it. -/
theorem pyMaxAux_spec (l : List Track) : ∀ cur : Track,
    (pyMaxAux cur l = cur ∧ ∀ u ∈ l, u.popularity ≤ cur.popularity)
    ∨ (∃ i : Nat, ∃ u : Track,
        l[i]? = some u ∧ pyMaxAux cur l = u ∧ cur.popularity < u.popularity
        ∧ (∀ j : Nat, ∀ v : Track, j < i → l[j]? = some v → v.popularity < u.popularity)
        ∧ (∀ v ∈ l, v.popularity ≤ u.popularity)) := by
  induction l with
  | nil => intro cur; left; exact ⟨rfl, by simp⟩
  | cons t ts ih =>
    intro cur
    by_cases hlt : cur.popularity < t.popularity
    · have hstep : pyMaxAux cur (t :: ts) = pyMaxAux t ts := by
        simp [pyMaxAux, hlt]
      rcases ih t with ⟨h1, h2⟩ | ⟨i, u, hg, hr, hcu, hfirst, hall⟩
      · right
        refine ⟨0, t, by simp, by rw [hstep, h1], hlt, ?_, ?_⟩
        · intro j v hj; omega
        · intro v hv
          rcases List.mem_cons.mp hv with rfl | hv
          · exact le_refl _
          · exact h2 v hv
      · right
        refine ⟨i + 1, u, by simpa using hg, by rw [hstep, hr], lt_trans hlt hcu, ?_, ?_⟩
        · intro j v hj hgv
          cases j with
          | zero =>
            simp only [List.getElem?_cons_zero, Option.some.injEq] at hgv
            subst hgv; exact hcu
          | succ j0 =>
            simp only [List.getElem?_cons_succ] at hgv
            exact hfirst j0 v (by omega) hgv
        · intro v hv
          rcases List.mem_cons.mp hv with rfl | hv
          · exact le_of_lt hcu
          · exact hall v hv
    · have hstep : pyMaxAux cur (t :: ts) = pyMaxAux cur ts := by
        simp [pyMaxAux, hlt]
      rcases ih cur with ⟨h1, h2⟩ | ⟨i, u, hg, hr, hcu, hfirst, hall⟩
      · left
        refine ⟨by rw [hstep, h1], ?_⟩
        intro v hv
        rcases List.mem_cons.mp hv with rfl | hv
        · omega
        · exact h2 v hv
      · right
        refine ⟨i + 1, u, by simpa using hg, by rw [hstep, hr], hcu, ?_, ?_⟩
        · intro j v hj hgv
          cases j with
          | zero =>
            simp only [List.getElem?_cons_zero, Option.some.injEq] at hgv
            subst hgv; omega
          | succ j0 =>
            simp only [List.getElem?_cons_succ] at hgv
            exact hfirst j0 v (by omega) hgv
        · intro v hv
          rcases List.mem_cons.mp hv with rfl | hv
          · omega
          · exact hall v hv

theorem redis_get_delete (st : SearchStore) (k : String) :
    redis_get (redis_delete st k) k = none := by
  induction st with
  | nil => rfl
  | cons kv rest ih =>
    by_cases h : kv.1 = k
    · have hb : (kv.1 == k) = true := by simpa using h
      simp only [redis_delete, List.filter_cons, hb, Bool.not_true] at ih ⊢
      exact ih
    · have hb : (kv.1 == k) = false := by simpa using h
      simp only [redis_delete, redis_get, List.filter_cons, List.find?_cons, hb,
        Bool.not_false, if_true] at ih ⊢
      exact ih

theorem getTable_append_self (ts : TablesMap) (n : String) (rows : List SongRow)
    (h : getTable ts n = none) : getTable (ts ++ [(n, rows)]) n = some rows := by
  induction ts with
  | nil => simp [getTable, List.find?_cons]
  | cons kv rest ih =>
    by_cases hb : kv.1 = n
    · exfalso
      have : (kv.1 == n) = true := by simpa using hb
      simp [getTable, List.find?_cons, this] at h
    · have hbf : (kv.1 == n) = false := by simpa using hb
      simp only [getTable, List.cons_append, List.find?_cons, hbf] at h ⊢
      exact ih h

theorem getTable_ensure_isSome (ts : TablesMap) (n : String) :
    (getTable (ensureTable ts n) n).isSome = true := by
  unfold ensureTable
  by_cases h : (getTable ts n).isSome = true
  · simp only [h, if_true]
  · have hn : getTable ts n = none := by
      cases hg : getTable ts n
      · rfl
      · rw [hg] at h; simp at h
    simp only [h]
    rw [if_neg (by simp [h]), getTable_append_self ts n [] hn]
    rfl

theorem getTable_setTable (ts : TablesMap) (n : String) (rows : List SongRow)
    (h : (getTable ts n).isSome = true) :
    getTable (setTable ts n rows) n = some rows := by
  induction ts with
  | nil => simp [getTable] at h
  | cons kv rest ih =>
    obtain ⟨k, v⟩ := kv
    by_cases hb : k = n
    · subst hb
      simp [setTable, getTable, List.find?_cons]
    · have hbf : (k == n) = false := by simpa using hb
      have h2 : (getTable rest n).isSome = true := by
        simpa [getTable, List.find?_cons, hbf] using h
      have hstep : setTable ((k, v) :: rest) n rows = (k, v) :: setTable rest n rows := by
        simp only [setTable, List.map_cons, hbf, Bool.false_eq_true, if_false]
      rw [hstep]
      have hgt : getTable ((k, v) :: setTable rest n rows) n
          = getTable (setTable rest n rows) n := by
        simp only [getTable, List.find?_cons, hbf]
      rw [hgt]
      exact ih h2

theorem recInv_append (table : RecTable) (p : Nat) (tid : String)
    (hInv : recInv table) (hp : ∀ pr ∈ table, pr.1 ≠ p) (ht : tid ∉ usedIds table) :
    recInv (table ++ [(p, tid)]) := by
  obtain ⟨h1, h2⟩ := hInv
  have hpm : p ∉ table.map Prod.fst := by
    intro hmem
    obtain ⟨pr, hpr, hfst⟩ := List.mem_map.mp hmem
    exact hp pr hpr hfst
  constructor
  · rw [List.map_append]
    rw [List.nodup_append]
    exact ⟨h1, List.nodup_singleton p, by simpa [List.disjoint_singleton] using hpm⟩
  · rw [List.map_append]
    rw [List.nodup_append]
    refine ⟨h2, List.nodup_singleton tid, ?_⟩
    have : tid ∉ table.map Prod.snd := ht
    simpa [List.disjoint_singleton] using this

/-- On the ok path, get_next_create leaves the table unchanged (exhausted
catalog) or appends the freshly chosen row at next_path. -/
theorem get_next_create_cases (catalog : List Track) (table : RecTable)
    (np choice : Nat) (r : Option Track) (t2 : RecTable)
    (h : get_next_create catalog table np choice = .ok (r, t2)) :
    (r = none ∧ t2 = table ∧ availableTracks catalog table = []) ∨
    (∃ tr : Track, r = some tr ∧ tr ∈ availableTracks catalog table ∧
      lookupRec table np = none ∧ t2 = table ++ [(np, tr.spotify_id)]) := by
  unfold get_next_create at h
  cases hav : availableTracks catalog table with
  | nil =>
    rw [hav] at h
    simp only [Except.ok.injEq, Prod.mk.injEq] at h
    exact Or.inl ⟨h.1.symm, h.2.symm, rfl⟩
  | cons a rest =>
    rw [hav] at h
    right
    unfold insertRow at h
    cases hl : lookupRec table np with
    | some tid => rw [hl] at h; simp at h
    | none =>
      rw [hl] at h
      simp only [Option.isSome_none, Bool.false_eq_true, if_false,
        Except.ok.injEq, Prod.mk.injEq] at h
      exact ⟨pickTrack a rest choice, h.1.symm, pickTrack_mem a rest choice, rfl, h.2.symm⟩

/-
Claim theorems.
-/

/-- C1 counterexample: a caller whose path-1 existence check saw no root
runs the creation branch against a store where a concurrent winner has
already persisted (1, "b").  The insert attempt is a silent no-op (its
statement construction raises AttributeError, swallowed by the bare except),
and the function returns its locally computed candidate trackA, not the
persisted winner's track "b" — the claim that it re-reads and returns the
persisted winner is false. -/
theorem c1_counterexample :
    lookupRec [(1, "b")] 1 = some "b" ∧
    get_initial_createRoot [trackA, trackB] [(1, "b")] = .ok (trackA, [(1, "b")]) ∧
    trackA.spotify_id ≠ "b" :=
  ⟨rfl, rfl, by decide⟩

/-- C1 amended: when the root insert of get_initial_recommendation hits an
already-inserted row, the insert is a no-op (the store is unchanged), but the
function returns its own locally computed candidate — the popularity maximum
of its catalog view — without re-reading the persisted winner. -/
theorem c1_amended_returns_local_candidate (catalog : List Track)
    (tableAtInsert : RecTable) (c : Track) (cs : List Track)
    (hc : catalog = c :: cs) (_h : (lookupRec tableAtInsert 1).isSome = true) :
    get_initial_createRoot catalog tableAtInsert = .ok (pyMaxAux c cs, tableAtInsert) := by
  subst hc
  simp [get_initial_createRoot]

/-- C1 witness: the amended theorem applied at the counterexample input. -/
theorem c1_witness :
    get_initial_createRoot [trackA, trackB] [(1, "b")]
      = .ok (pyMaxAux trackA [trackB], [(1, "b")]) :=
  c1_amended_returns_local_candidate [trackA, trackB] [(1, "b")] trackA [trackB] rfl rfl

/-- Appending rows at the end of the recommendations table never changes an
existing binding: the first matching row is unchanged. -/
theorem lookupRec_append_left (t l : RecTable) (p : Nat) (v : String)
    (h : lookupRec t p = some v) : lookupRec (t ++ l) p = some v := by
  induction t with
  | nil => simp [lookupRec] at h
  | cons hd rest ih =>
    obtain ⟨q, tid⟩ := hd
    by_cases hq : q = p
    · subst hq
      simp only [lookupRec, if_pos rfl] at h
      simpa [lookupRec] using h
    · simp only [lookupRec, if_neg hq] at h
      simpa [lookupRec, hq] using ih h

/-- get_initial_recommendation never modifies the recommendations table on
any successful path: the memoized branch only reads, and the creation
branch's insert dies on AttributeError inside the bare except. -/
theorem get_initial_no_write (catalog : List Track) (table : RecTable)
    (t : Track) (t2 : RecTable)
    (h : get_initial_recommendation catalog table = .ok (t, t2)) : t2 = table := by
  cases hl : lookupRec table 1 with
  | none =>
    simp only [get_initial_recommendation, hl] at h
    cases catalog with
    | nil => simp [get_initial_createRoot] at h
    | cons c cs =>
      simp only [get_initial_createRoot, Except.ok.injEq, Prod.mk.injEq] at h
      exact h.2.symm
  | some tid =>
    simp only [get_initial_recommendation, hl] at h
    by_cases he : tid = ""
    · rw [if_pos he] at h
      cases catalog with
      | nil => simp [get_initial_createRoot] at h
      | cons c cs =>
        simp only [get_initial_createRoot, Except.ok.injEq, Prod.mk.injEq] at h
        exact h.2.symm
    · rw [if_neg he] at h
      cases hg : getTrack catalog tid with
      | none =>
        simp only [hg] at h
        exact Except.noConfusion h
      | some tr =>
        simp only [hg, Except.ok.injEq, Prod.mk.injEq] at h
        exact h.2.symm

/-- C2: for a fixed artist both operations preserve the partial-function
invariant and never overwrite an existing path binding:
get_initial_recommendation never writes at all (its root insert dies on
AttributeError inside the bare except), and get_next_recommendation only
appends a not-yet-used track at a path with no node, so paths stay
pairwise distinct and no track_id is ever assigned to two different paths
of the same artist's tree. -/
theorem c2_invariant_preservation (catalog : List Track) (table : RecTable)
    (cp choice : Nat) (liked : Bool) (hInv : recInv table) :
    (∀ r : Option Track, ∀ t2 : RecTable,
      get_next_recommendation catalog table cp liked choice = .ok (r, t2) →
        recInv t2 ∧ ∀ p : Nat, ∀ v : String,
          lookupRec table p = some v → lookupRec t2 p = some v) ∧
    (∀ t : Track, ∀ t2 : RecTable,
      get_initial_recommendation catalog table = .ok (t, t2) →
        recInv t2 ∧ ∀ p : Nat, ∀ v : String,
          lookupRec table p = some v → lookupRec t2 p = some v) := by
  constructor
  · intro r t2 h
    have hcreate : ∀ hc : get_next_create catalog table (nextPath cp liked) choice
        = .ok (r, t2),
        recInv t2 ∧ ∀ p : Nat, ∀ v : String,
          lookupRec table p = some v → lookupRec t2 p = some v := by
      intro hc
      rcases get_next_create_cases catalog table (nextPath cp liked) choice r t2 hc with
        ⟨_, rfl, _⟩ | ⟨tr, _, htr, hnone, rfl⟩
      · exact ⟨hInv, fun p v hv => hv⟩
      · refine ⟨recInv_append table (nextPath cp liked) tr.spotify_id hInv
          ((lookupRec_eq_none_iff table (nextPath cp liked)).mp hnone)
          (availableTracks_not_used catalog table tr htr), ?_⟩
        intro p v hv
        exact lookupRec_append_left table _ p v hv
    cases hl : lookupRec table (nextPath cp liked) with
    | none =>
      simp only [get_next_recommendation, hl] at h
      exact hcreate h
    | some tid =>
      simp only [get_next_recommendation, hl] at h
      by_cases he : tid = ""
      · rw [if_pos he] at h
        exact hcreate h
      · rw [if_neg he] at h
        simp only [Except.ok.injEq, Prod.mk.injEq] at h
        rw [← h.2]
        exact ⟨hInv, fun p v hv => hv⟩
  · intro t t2 h
    have ht := get_initial_no_write catalog table t t2 h
    subst ht
    exact ⟨hInv, fun p v hv => hv⟩

/-- C2 witness: preservation applied on a concrete well-formed two-node
tree. -/
theorem c2_witness :
    recInv [(1, "b"), (3, "a")] ∧
    (∀ r : Option Track, ∀ t2 : RecTable,
      get_next_recommendation [trackA, trackB, trackC] [(1, "b"), (3, "a")] 3 false 0
        = .ok (r, t2) →
        recInv t2 ∧ ∀ p : Nat, ∀ v : String,
          lookupRec [(1, "b"), (3, "a")] p = some v → lookupRec t2 p = some v) ∧
    (∀ t : Track, ∀ t2 : RecTable,
      get_initial_recommendation [trackA, trackB, trackC] [(1, "b"), (3, "a")]
        = .ok (t, t2) →
        recInv t2 ∧ ∀ p : Nat, ∀ v : String,
          lookupRec [(1, "b"), (3, "a")] p = some v → lookupRec t2 p = some v) := by
  have h := c2_invariant_preservation [trackA, trackB, trackC]
    [(1, "b"), (3, "a")] 3 0 false (by decide)
  exact ⟨by decide, h.1, h.2⟩

/-- C4: when no node exists at path 1 and the catalog is nonempty, the
root returned by get_initial_recommendation occurs in the catalog at an
index i, has globally maximal popularity, and every strictly earlier track
has strictly smaller popularity — it is the first maximal track in catalog
iteration order. -/
theorem c4_root_is_first_popularity_max (catalog : List Track) (table : RecTable)
    (hne : catalog ≠ []) (hroot : lookupRec table 1 = none) :
    ∃ t : Track, ∃ table2 : RecTable, ∃ i : Nat,
      get_initial_recommendation catalog table = .ok (t, table2) ∧
      catalog[i]? = some t ∧
      (∀ u ∈ catalog, u.popularity ≤ t.popularity) ∧
      (∀ j : Nat, ∀ v : Track, j < i → catalog[j]? = some v →
        v.popularity < t.popularity) := by
  obtain ⟨c, cs, rfl⟩ := List.exists_cons_of_ne_nil hne
  have hrun : get_initial_recommendation (c :: cs) table
      = .ok (pyMaxAux c cs, table) := by
    simp [get_initial_recommendation, hroot, get_initial_createRoot]
  rcases pyMaxAux_spec cs c with ⟨h1, h2⟩ | ⟨i, u, hg, hr, hcu, hfirst, hall⟩
  · refine ⟨pyMaxAux c cs, _, 0, hrun, ?_, ?_, ?_⟩
    · rw [h1]; simp
    · intro v hv
      rcases List.mem_cons.mp hv with rfl | hv
      · rw [h1]
      · rw [h1]; exact h2 v hv
    · intro j v hj; omega
  · refine ⟨pyMaxAux c cs, _, i + 1, hrun, ?_, ?_, ?_⟩
    · rw [hr]; simpa using hg
    · intro v hv
      rw [hr]
      rcases List.mem_cons.mp hv with rfl | hv
      · exact le_of_lt hcu
      · exact hall v hv
    · intro j v hj hgv
      rw [hr]
      cases j with
      | zero =>
        simp only [List.getElem?_cons_zero, Option.some.injEq] at hgv
        subst hgv; exact hcu
      | succ j0 =>
        simp only [List.getElem?_cons_succ] at hgv
        exact hfirst j0 v (by omega) hgv

/-- C4 witness: a concrete catalog with popularities 10, 90, 50 resolves the
root to the track at index 1. -/
theorem c4_witness :
    ([trackC, trackA, trackB] : List Track) ≠ [] ∧
    lookupRec ([] : RecTable) 1 = none ∧
    (∃ t : Track, ∃ table2 : RecTable, ∃ i : Nat,
      get_initial_recommendation [trackC, trackA, trackB] [] = .ok (t, table2) ∧
      [trackC, trackA, trackB][i]? = some t ∧
      (∀ u ∈ [trackC, trackA, trackB], u.popularity ≤ t.popularity) ∧
      (∀ j : Nat, ∀ v : Track, j < i → [trackC, trackA, trackB][j]? = some v →
        v.popularity < t.popularity)) :=
  ⟨by decide, rfl, c4_root_is_first_popularity_max [trackC, trackA, trackB] []
    (by decide) rfl⟩

/-- C5: get_next_recommendation addresses the child node as
(current_path << 1) | liked-bit: arithmetically 2 * current_path + bit,
the parent is recovered by a right shift, and the claimed instances
(1, liked) ↦ 3 and (3, not liked) ↦ 6 hold. -/
theorem c5_next_path_formula (cp : Nat) (liked : Bool) (_hpos : 0 < cp) :
    nextPath cp liked = 2 * cp + (if liked then 1 else 0) ∧
    nextPath cp liked >>> 1 = cp ∧
    nextPath 1 true = 3 ∧ nextPath 3 false = 6 := by
  refine ⟨nextPath_eq cp liked, ?_, rfl, rfl⟩
  rw [nextPath_eq, Nat.shiftRight_eq_div_pow]
  cases liked <;> simp
  all_goals omega

/-- C5 witness: the formula at current_path = 5. -/
theorem c5_witness :
    nextPath 5 true = 2 * 5 + (if true then 1 else 0) ∧
    nextPath 5 true >>> 1 = 5 ∧
    nextPath 1 true = 3 ∧ nextPath 3 false = 6 :=
  c5_next_path_formula 5 true (by decide)

/-- C6: when a node already exists at the computed next_path (its stored
track_id is a nonempty string, as every stored id is), get_next_recommendation
returns that node's stored track — the catalog row whose spotify_id equals
the stored track_id — and returns the recommendation table unchanged: no
write happens. -/
theorem c6_memoized_no_write (catalog : List Track) (table : RecTable)
    (cp choice : Nat) (liked : Bool) (tid : String)
    (h : lookupRec table (nextPath cp liked) = some tid) (hne : tid ≠ "") :
    get_next_recommendation catalog table cp liked choice
      = .ok (getTrack catalog tid, table) ∧
    (∀ t : Track, getTrack catalog tid = some t → t.spotify_id = tid) := by
  constructor
  · simp [get_next_recommendation, h, hne]
  · intro t ht
    have := List.find?_some ht
    simpa using this

/-- C6 witness: a node (3, "a") is returned as-is with the table unchanged. -/
theorem c6_witness :
    get_next_recommendation [trackA, trackB] [(3, "a")] 1 true 7
      = .ok (getTrack [trackA, trackB] "a", [(3, "a")]) ∧
    (∀ t : Track, getTrack [trackA, trackB] "a" = some t → t.spotify_id = "a") :=
  c6_memoized_no_write [trackA, trackB] [(3, "a")] 1 7 true "a" rfl (by decide)

/-- C7: when no node exists at next_path and every catalog track is already
used somewhere in the tree (available = catalog − used is empty),
get_next_recommendation returns None and the table is unchanged — no error,
no node created. -/
theorem c7_exhausted_returns_none (catalog : List Track) (table : RecTable)
    (cpv : Nat) (likedv : Bool) (choicev : Nat)
    (h : lookupRec table (nextPath cpv likedv) = none)
    (hav : availableTracks catalog table = []) :
    get_next_recommendation catalog table cpv likedv choicev = .ok (none, table) := by
  simp [get_next_recommendation, h, get_next_create, hav]

/-- C7 witness: both catalog tracks already assigned, vote from path 1. -/
theorem c7_witness :
    lookupRec [(1, "a"), (3, "b")] (nextPath 1 false) = none ∧
    availableTracks [trackA, trackB] [(1, "a"), (3, "b")] = [] ∧
    get_next_recommendation [trackA, trackB] [(1, "a"), (3, "b")] 1 false 0
      = .ok (none, [(1, "a"), (3, "b")]) :=
  ⟨rfl, by decide, c7_exhausted_returns_none [trackA, trackB] [(1, "a"), (3, "b")]
    1 false 0 rfl (by decide)⟩

/-- C8: after any run of event_generator — normal completion, a missing
search record, a collaborator error, or the consumer abandoning the stream
after any number of messages — the finally block has deleted the search
record, so a TTL-store get of the search id returns null. -/
theorem c8_cleanup_deletes_search (store : SearchStore) (search_id : String)
    (env : GenEnv) (stopAfter : Option Nat) :
    redis_get (event_generator_run store search_id env stopAfter).2
      ("search:" ++ search_id) = none :=
  redis_get_delete store ("search:" ++ search_id)

/-- The artists component of update_artist_songs is the same on both the
success and the failure path: every row whose name matches gets
last_updated = now. -/
theorem update_artist_songs_artists (now : Int) (db : CatalogDB) (name : String)
    (songs : List SongRow) (failAt : Option Nat) :
    (update_artist_songs now db name songs failAt).1.artists
      = db.artists.map
          (fun r => if r.name == name then { r with last := some now } else r) := by
  simp only [update_artist_songs]
  split
  · rfl
  · rfl

/-- The tables component of update_artist_songs: on failure only the
committed ensure step survives (the old songs stay); on success the song set
is the replacement. -/
theorem update_artist_songs_tables (now : Int) (db : CatalogDB) (name : String)
    (songs : List SongRow) (failAt : Option Nat) :
    ((update_artist_songs now db name songs failAt).2 = false →
      (update_artist_songs now db name songs failAt).1.tables
        = ensureTable db.tables (sanitize_table_name name)) ∧
    ((update_artist_songs now db name songs failAt).2 = true →
      (update_artist_songs now db name songs failAt).1.tables
        = setTable (ensureTable db.tables (sanitize_table_name name))
            (sanitize_table_name name) songs) := by
  simp only [update_artist_songs]
  split
  · exact ⟨fun h => Bool.noConfusion h, fun _ => rfl⟩
  · exact ⟨fun _ => rfl, fun h => Bool.noConfusion h⟩

/-- C3 counterexample: artist "X" was last synced at day 0; at day 100 an
update whose replacement fails at the first INSERT still commits
last_updated = 100 (via the ensure-table commit), so the claim that a failed
replacement leaves last_synced unchanged is false. -/
theorem c3_counterexample :
    (update_artist_songs 100 c3db "X" mockSongs (some 0)).2 = false ∧
    (update_artist_songs 100 c3db "X" mockSongs (some 0)).1.artists ≠ c3db.artists :=
  ⟨rfl, by decide⟩

/-- C3 amended: update_artist_songs sets last_updated = now before the
replacement and that update is committed by the table-ensure step, so it
survives a failed replacement (whose DELETE/INSERTs roll back, keeping the
old songs); only on success is the track set replaced; afterwards
check_artist_status reports the artist as fresh, so a failed sync is not
retried within the staleness window. -/
theorem c3_amended_timestamp_before_replacement (now : Int) (db : CatalogDB)
    (name : String) (songs : List SongRow) (failAt : Option Nat) :
    (∀ row ∈ (update_artist_songs now db name songs failAt).1.artists,
      row.name = name → row.last = some now) ∧
    ((update_artist_songs now db name songs failAt).2 = false →
      (update_artist_songs now db name songs failAt).1.tables
        = ensureTable db.tables (sanitize_table_name name)) ∧
    ((update_artist_songs now db name songs failAt).2 = true →
      getTable (update_artist_songs now db name songs failAt).1.tables
        (sanitize_table_name name) = some songs) ∧
    (∀ s : String, ∀ rrow : ArtistRow,
      lookupArtist (update_artist_songs now db name songs failAt).1.artists s
        = some rrow →
      rrow.name = name →
      check_artist_status now (update_artist_songs now db name songs failAt).1 s name
        = .ok (false, sanitize_table_name s,
            (update_artist_songs now db name songs failAt).1)) := by
  have hartists : ∀ row ∈ (update_artist_songs now db name songs failAt).1.artists,
      row.name = name → row.last = some now := by
    intro row hrow hname
    rw [update_artist_songs_artists] at hrow
    obtain ⟨orig, ho, heq⟩ := List.mem_map.mp hrow
    by_cases hn : orig.name = name
    · have hb : (orig.name == name) = true := by simpa using hn
      rw [hb] at heq
      simp only [if_true] at heq
      rw [← heq]
    · have hb : (orig.name == name) = false := by simpa using hn
      rw [hb] at heq
      simp only [Bool.false_eq_true, if_false] at heq
      rw [← heq] at hname
      exact absurd hname hn
  refine ⟨hartists, (update_artist_songs_tables now db name songs failAt).1, ?_, ?_⟩
  · intro hok
    rw [(update_artist_songs_tables now db name songs failAt).2 hok]
    exact getTable_setTable _ _ _ (getTable_ensure_isSome _ _)
  · intro s rrow hlook hname
    have hmem := List.mem_of_find?_eq_some hlook
    have hlast : rrow.last = some now := hartists rrow hmem hname
    have hlt : ¬ (now < now - 14) := by omega
    simp [check_artist_status, hlook, hlast, hlt]

/-- C3 witness: the amended theorem at the counterexample input. -/
theorem c3_witness :
    (∀ row ∈ (update_artist_songs 100 c3db "X" mockSongs (some 0)).1.artists,
      row.name = "X" → row.last = some 100) ∧
    ((update_artist_songs 100 c3db "X" mockSongs (some 0)).2 = false →
      (update_artist_songs 100 c3db "X" mockSongs (some 0)).1.tables
        = ensureTable c3db.tables (sanitize_table_name "X")) ∧
    ((update_artist_songs 100 c3db "X" mockSongs (some 0)).2 = true →
      getTable (update_artist_songs 100 c3db "X" mockSongs (some 0)).1.tables
        (sanitize_table_name "X") = some mockSongs) ∧
    (∀ s : String, ∀ rrow : ArtistRow,
      lookupArtist (update_artist_songs 100 c3db "X" mockSongs (some 0)).1.artists s
        = some rrow →
      rrow.name = "X" →
      check_artist_status 100 (update_artist_songs 100 c3db "X" mockSongs (some 0)).1
          s "X"
        = .ok (false, sanitize_table_name s,
            (update_artist_songs 100 c3db "X" mockSongs (some 0)).1)) :=
  c3_amended_timestamp_before_replacement 100 c3db "X" mockSongs (some 0)

/-- C9 counterexample: an existing artist row whose last_updated is NULL
makes check_artist_status raise TypeError (datetime.fromisoformat(None))
instead of counting as stale, and the surrounding search raises as well,
with zero sync-provider invocations. -/
theorem c9_counterexample :
    check_artist_status 100 c9db "x" "X" = .error .typeError ∧
    search_songs_for_artist 100 c9db "x" "X" none = (.error .typeError, c9db, 0) :=
  ⟨rfl, rfl⟩

/-- C9 amended: a missing artist record counts as stale (and is created with
last_updated = now); for an existing record the staleness predicate is
last_updated < now - 14 days, and the search performs exactly one
sync-provider invocation when stale and zero otherwise; but an existing
record with a NULL last_updated raises TypeError instead of counting as
stale. -/
theorem c9_amended_staleness (now t : Int) (db : CatalogDB) (sid name : String)
    (r : ArtistRow) (failAt : Option Nat) :
    (lookupArtist db.artists sid = none →
      check_artist_status now db sid name
        = .ok (true, sanitize_table_name sid,
            ⟨db.artists ++ [⟨sid, name, some now⟩],
             ensureTable db.tables (sanitize_table_name sid)⟩)) ∧
    (lookupArtist db.artists sid = some r → r.last = some t →
      (search_songs_for_artist now db sid name failAt).2.2
        = if t < now - 14 then 1 else 0) ∧
    (lookupArtist db.artists sid = some r → r.last = none →
      check_artist_status now db sid name = .error .typeError) := by
  refine ⟨?_, ?_, ?_⟩
  · intro h
    simp [check_artist_status, h]
  · intro h1 h2
    simp only [search_songs_for_artist, check_artist_status, h1, h2]
    by_cases hc : t < now - 14
    · rw [if_pos hc, decide_eq_true hc]
      simp only [if_true]
      cases hu : (update_artist_songs now db name mockSongs failAt).2
      · simp only [hu, Bool.false_eq_true, if_false]
      · simp only [hu, if_true]
        cases hg : getTable (update_artist_songs now db name mockSongs failAt).1.tables
            (sanitize_table_name sid)
        · simp only [hg]
        · simp only [hg]
    · rw [if_neg hc, decide_eq_false hc]
      simp only [Bool.false_eq_true, if_false]
      cases hg : getTable db.tables (sanitize_table_name sid)
      · simp only [hg]
      · simp only [hg]
  · intro h1 h2
    simp [check_artist_status, h1, h2]

/-- C9 witness: an artist synced 15 days ago (day 85, now = day 100)
triggers one sync-provider invocation. -/
theorem c9_witness :
    (search_songs_for_artist 100 c9wdb "x" "X" none).2.2
      = if (85 : Int) < 100 - 14 then 1 else 0 :=
  (c9_amended_staleness 100 85 c9wdb "x" "X" ⟨"x", "X", some 85⟩ none).2.1 rfl rfl

/-- C10: create_tree_from_tracks indexes positions 0 through 6 of the
random.sample result, which has min 7 (len tracks) elements, so every track
list with fewer than 7 elements raises IndexError, and every list with at
least 7 builds the preview tree. -/
theorem c10_small_catalog_index_error (tracks : List Track) (an : String)
    (sample : List Track → List Track)
    (hs : (sample tracks).length = min 7 tracks.length) :
    (tracks.length < 7 →
      create_tree_from_tracks tracks an sample = .error .indexError) ∧
    (7 ≤ tracks.length →
      (create_tree_from_tracks tracks an sample).isOk = true) := by
  constructor
  · intro hlen
    have hsl : (sample tracks).length < 7 := by rw [hs]; omega
    rcases hsam : sample tracks with _ | ⟨a0, _ | ⟨a1, _ | ⟨a2, _ | ⟨a3, _ | ⟨a4, _ | ⟨a5, rest⟩⟩⟩⟩⟩⟩
    · simp only [create_tree_from_tracks, hsam]; rfl
    · simp only [create_tree_from_tracks, hsam]; rfl
    · simp only [create_tree_from_tracks, hsam]; rfl
    · simp only [create_tree_from_tracks, hsam]; rfl
    · simp only [create_tree_from_tracks, hsam]; rfl
    · simp only [create_tree_from_tracks, hsam]; rfl
    · have hr : rest = [] := by
        rw [hsam] at hsl
        simp only [List.length_cons] at hsl
        have : rest.length = 0 := by omega
        exact List.length_eq_zero.mp this
      subst hr
      simp only [create_tree_from_tracks, hsam]; rfl
  · intro hlen
    have hsl : (sample tracks).length = 7 := by rw [hs]; omega
    rcases hsam : sample tracks with _ | ⟨a0, _ | ⟨a1, _ | ⟨a2, _ | ⟨a3, _ | ⟨a4, _ | ⟨a5, rest⟩⟩⟩⟩⟩⟩
    · rw [hsam] at hsl; simp at hsl
    · rw [hsam] at hsl; simp at hsl
    · rw [hsam] at hsl; simp at hsl
    · rw [hsam] at hsl; simp at hsl
    · rw [hsam] at hsl; simp at hsl
    · rw [hsam] at hsl; simp at hsl
    · rcases rest with _ | ⟨a6, rest2⟩
      · rw [hsam] at hsl; simp at hsl
      · simp only [create_tree_from_tracks, hsam, idxTrack,
          List.getElem?_cons_zero, List.getElem?_cons_succ]
        rfl

/-- C10 witness: a three-track catalog raises IndexError. -/
theorem c10_witness :
    ((id : List Track → List Track) [trackA, trackB, trackC]).length
      = min 7 ([trackA, trackB, trackC] : List Track).length ∧
    ([trackA, trackB, trackC] : List Track).length < 7 ∧
    create_tree_from_tracks [trackA, trackB, trackC] "X" id = .error .indexError :=
  ⟨rfl, by decide,
    (c10_small_catalog_index_error [trackA, trackB, trackC] "X" id rfl).1 (by decide)⟩
